import Mathlib

set_option maxRecDepth 20000

/-!
Verification of the SPM installer spec builder (neurodocker).

Shallow embedding of `neurodocker/interfaces/spm.py` (class `SPM`) and of
the parts of its collaborators the claims need: `check_url` (from
`src/utils.py`, modelled as an oracle), `distutils.version.LooseVersion`
(component parsing and Python list comparison), `str.format` placeholder
substitution, `urllib.parse.urljoin` for the relative-reference shape this
program uses, and the two collaborators `indent` and `manage_pkgs` that the
source imports from `neurodocker.utils` but whose definitions are not part
of the sources (those two are modelled from the spec).
-/

namespace NeurodockerSPM

/-! ## Generic Python string helpers, over `List Char` -/

/-- Decimal value of a run of digit characters, as Python `int()` of the run. -/
def charsToNat (cs : List Char) : Nat :=
  cs.foldl (fun a c => a * 10 + (c.toNat - 48)) 0

/-- Fuel-driven worker for `pyReplace`: replace every occurrence of a
nonempty pattern, scanning left to right, as Python `str.replace` and
`str.format` placeholder substitution do. -/
def replaceAux (pat val : List Char) : Nat → List Char → List Char
  | 0, s => s
  | _ + 1, [] => []
  | fuel + 1, c :: cs =>
    if pat.isPrefixOf (c :: cs) then
      val ++ replaceAux pat val fuel (List.drop pat.length (c :: cs))
    else
      c :: replaceAux pat val fuel cs

/-- Python `template.replace(pat, val)` for a nonempty `pat`; also models
`str.format` substitution of one named placeholder (`pat = "\x7bname\x7d"`). -/
def pyReplace (s pat val : String) : String :=
  ⟨replaceAux pat.data val.data s.data.length s.data⟩

/-- Fuel-driven worker for `pySplitlines`. -/
def splitLinesAux : Nat → List Char → List (List Char)
  | 0, _ => []
  | _ + 1, [] => []
  | fuel + 1, cs =>
    let l := cs.takeWhile (fun c => c ≠ '\n')
    match cs.dropWhile (fun c => c ≠ '\n') with
    | [] => [l]
    | _ :: rest => l :: splitLinesAux fuel rest

/-- Python `str.splitlines()` for strings whose only line boundary is
`'\n'`: a trailing newline does not produce a final empty line. -/
def pySplitlines (s : String) : List String :=
  (splitLinesAux s.data.length s.data).map String.mk

/-- Fuel-driven substring scan: is `pat` an infix of the character list? -/
def occursAux (pat : List Char) : List Char → Bool
  | [] => pat.isEmpty
  | c :: cs => pat.isPrefixOf (c :: cs) || occursAux pat cs

/-- Python `pat in s` (substring containment). -/
def containsSub (s pat : String) : Bool :=
  occursAux pat.data s.data

/-- Count the occurrences of a nonempty pattern, scanning left to right
without overlap (Python `str.count`). -/
def countOccAux (pat : List Char) : Nat → List Char → Nat
  | 0, _ => 0
  | _ + 1, [] => 0
  | fuel + 1, c :: cs =>
    if pat.isPrefixOf (c :: cs) then
      countOccAux pat fuel (List.drop pat.length (c :: cs)) + 1
    else
      countOccAux pat fuel cs

/-- Python `s.count(pat)` for nonempty `pat`. -/
def countOcc (s pat : String) : Nat :=
  countOccAux pat.data s.data.length s.data

/-! ## `distutils.version.LooseVersion`

`LooseVersion.parse` splits the version string with the regex
`(\d+ | [a-z]+ | \.)`: maximal digit runs become `int` components, maximal
lowercase-letter runs and every other maximal run of unmatched characters
stay `str` components, and `'.'` separators are dropped. `str()` of a
`LooseVersion` returns the original string, so the model keeps the raw
string and parses only for comparison. -/

/-- One parsed version component: Python `int` or `str`. -/
inductive LComp where
  | num (n : Nat)
  | str (s : String)
deriving DecidableEq, Repr

/-- Character class of the `[a-z]+` alternative of the component regex. -/
def isLowerAZ (c : Char) : Bool :=
  'a' ≤ c && c ≤ 'z'

/-- Character that belongs to no regex alternative: kept in the unmatched
residue chunks that `re.split` leaves between matches. -/
def isOtherChar (c : Char) : Bool :=
  !c.isDigit && !isLowerAZ c && c ≠ '.'

/-- Fuel-driven worker for `looseParse`. -/
def looseParseAux : Nat → List Char → List LComp
  | 0, _ => []
  | _ + 1, [] => []
  | fuel + 1, c :: cs =>
    if c = '.' then
      looseParseAux fuel cs
    else if c.isDigit then
      let run := (c :: cs).takeWhile Char.isDigit
      LComp.num (charsToNat run) :: looseParseAux fuel ((c :: cs).dropWhile Char.isDigit)
    else if isLowerAZ c then
      let run := (c :: cs).takeWhile isLowerAZ
      LComp.str ⟨run⟩ :: looseParseAux fuel ((c :: cs).dropWhile isLowerAZ)
    else
      let run := (c :: cs).takeWhile isOtherChar
      LComp.str ⟨run⟩ :: looseParseAux fuel ((c :: cs).dropWhile isOtherChar)

/-- `LooseVersion(vstring).version`: the parsed component list. -/
def looseParse (s : String) : List LComp :=
  looseParseAux s.data.length s.data

/-- Code-point lexicographic ordering of two character lists. -/
def charsOrd : List Char → List Char → Ordering
  | [], [] => .eq
  | [], _ :: _ => .lt
  | _ :: _, [] => .gt
  | a :: as, b :: bs =>
    if a < b then .lt else if b < a then .gt else charsOrd as bs

/-- Python 3 ordering of two strings (code-point lexicographic). -/
def strOrd (a b : String) : Ordering :=
  charsOrd a.data b.data

/-- Python 3 comparison of two components: `int` with `int` and `str` with
`str` compare normally; a mixed pair raises `TypeError` (`none`). -/
def lcompCmp : LComp → LComp → Option Ordering
  | .num a, .num b => some (compare a b)
  | .str a, .str b => some (strOrd a b)
  | _, _ => none

/-- Python 3 list comparison on component lists, as `LooseVersion._cmp`
performs it: elementwise, first unequal pair decides, a strict prefix is
smaller, and a mixed-type deciding pair raises `TypeError` (`none`). -/
def looseCmp : List LComp → List LComp → Option Ordering
  | [], [] => some .eq
  | [], _ :: _ => some .lt
  | _ :: _, [] => some .gt
  | a :: as, b :: bs =>
    match lcompCmp a b with
    | none => none
    | some .eq => looseCmp as bs
    | some o => some o

/-! ## `urllib.parse.urljoin`, for the shape the program uses -/

/-- Model of `urljoin(base, rel)` for a relative-path reference `rel` (no
scheme, no leading slash), the only shape `_get_mcr_url` passes: the result
is the base up to and including its last `'/'` followed by `rel`. The base
used by the program ends in `'/'`, so the whole base is kept. -/
def urljoin (base rel : String) : String :=
  ⟨(base.data.reverse.dropWhile (fun c => c ≠ '/')).reverse⟩ ++ rel

/-! ## Python exceptions raised by the program -/

/-- Exceptions the embedded code can raise: `ValueError` from the version
check in `SPM.__init__`, `KeyError` from a dict lookup with an unknown key,
`TypeError` from comparing `int` with `str` inside `LooseVersion` ordering.
The spec's `ConfigurationError` abstracts the first two. -/
inductive PyError where
  | valueError (msg : String)
  | keyError (key : String)
  | typeError
deriving DecidableEq, Repr

/-- Predicate for the spec's `ConfigurationError` taxonomy: invalid
version (`ValueError`) or unrecognized package manager (`KeyError`). -/
def PyError.isConfigurationError : PyError → Bool
  | .valueError _ => true
  | .keyError _ => true
  | .typeError => false

/-! ## Collaborators from `neurodocker.utils`

The source imports `check_url`, `indent` and `manage_pkgs` from
`neurodocker.utils`. `check_url` is in the sources (`src/utils.py`): it
returns `True` when the URL is reachable and otherwise logs a warning and
returns `False`, never raising; it is modelled as an oracle
`reach : String → Bool` together with a trace of the calls performed.
`indent` and `manage_pkgs` are not in the sources and are modelled from
the spec. -/

/-- Command templates of one package manager, as the entries of the
`manage_pkgs` mapping that `install_libs` formats with. -/
structure PkgTemplates where
  install : String
  clean : String
deriving DecidableEq, Repr

/-- Modelled from the spec: the package-manager command lookup collaborator
`manage_pkgs` (imported from `neurodocker.utils`, whose definition is not
in the sources). Fixed install-command and cache-clean-command shell
templates for the two supported managers; the install template carries the
`\x7bpkgs\x7d` placeholder; lookup of any other manager identifier fails
(`KeyError` at the call site). The exact template text is a model — the
spec fixes only its existence and shape. -/
def manage_pkgs (pm : String) : Option PkgTemplates :=
  if pm = "apt" then
    some ⟨"apt-get update -qq && apt-get install -yq --no-install-recommends {pkgs}",
          "apt-get clean\n&& rm -rf /var/lib/apt/lists/*"⟩
  else if pm = "yum" then
    some ⟨"yum install -y -q {pkgs}",
          "yum clean packages\n&& rm -rf /var/cache/yum/*"⟩
  else
    none

/-- Modelled from the spec: the `indent` collaborator (imported from
`neurodocker.utils`, whose definition is not in the sources). Formats a
multi-line shell command block under an instruction keyword: the keyword
prefixes the first line, continuation lines are indented past the keyword,
and every line but the last receives a backslash line continuation —
purely textual. -/
def indent (instruction cmd : String) : String :=
  let pad : String := ⟨List.replicate (instruction.data.length + 1) ' '⟩
  match pySplitlines cmd with
  | [] => instruction
  | [l] => instruction ++ " " ++ l
  | l :: ls =>
    let rec contLines : List String → List String
      | [] => []
      | [m] => [pad ++ m]
      | m :: ms => (pad ++ m ++ " \\") :: contLines ms
    String.intercalate "\n" ((instruction ++ " " ++ l ++ " \\") :: contLines ls)

/-! ## The `SPM` class -/

/-- Dict `libs` of `SPM.install_libs`: required OS libraries per manager. -/
def libs (pm : String) : Option String :=
  if pm = "apt" then some "libxext6 libxt6"
  else if pm = "yum" then some "libXext.x86_64 libXt.x86_64"
  else none

/-- Body of `SPM.install_libs`: format the manager's install and clean
templates into `"\x7binstall\x7d\n&& \x7bclean\x7d"`, substitute the package list
for `\x7bpkgs\x7d`, wrap under `RUN`, and prefix the comment line. The two dict
lookups raise `KeyError` for an unrecognized manager; `manage_pkgs` is
looked up first. -/
def install_libs (pm : String) : Except PyError String :=
  match manage_pkgs pm with
  | none => .error (.keyError pm)
  | some t =>
    match libs pm with
    | none => .error (.keyError pm)
    | some pkgs =>
      let cmd := t.install ++ "\n&& " ++ t.clean
      let cmd := pyReplace cmd "{pkgs}" pkgs
      let cmd := indent "RUN" cmd
      .ok ("# Install required libraries" ++ "\n" ++ cmd)

/-- Fixed base URL of `SPM._get_mcr_url`. -/
def mcrBase : String := "https://www.mathworks.com/supportfiles/"

/-- Relative template chosen when `matlab_version > LooseVersion("R2013a")`. -/
def mcrRelNew : String :=
  "downloads/{ver}/deployment_files/{ver}/installers/glnxa64/MCR_{ver}_glnxa64_installer.zip"

/-- Relative template chosen otherwise (legacy layout). -/
def mcrRelOld : String :=
  "MCR_Runtime/{ver}/MCR_{ver}_glnxa64_installer.zip"

/-- Body of `SPM._get_mcr_url` up to the URL value: pick the template by
comparing `matlab_version` against `LooseVersion("R2013a")` — `TypeError`
when the comparison is between `int` and `str` — join onto the base, and
substitute `matlab_version` (whose `str()` is the original string) for
every `\x7bver\x7d` placeholder. -/
def mcrUrlValue (matlab_version : String) : Except PyError String :=
  match looseCmp (looseParse matlab_version) (looseParse "R2013a") with
  | none => .error .typeError
  | some o =>
    let rel := if o = .gt then mcrRelNew else mcrRelOld
    .ok (pyReplace (urljoin mcrBase rel) "{ver}" matlab_version)

/-- The trace of `check_url` calls: each entry is the URL passed and the
boolean the call returned (always discarded by the caller). -/
abbrev CheckTrace := List (String × Bool)

/-- Full `SPM._get_mcr_url`: compute the URL, then, when `check_urls`,
call `check_url` on it (result ignored). Returns the URL and the calls
performed. -/
def _get_mcr_url (matlab_version : String) (check_urls : Bool)
    (reach : String → Bool) : Except PyError String × CheckTrace :=
  match mcrUrlValue matlab_version with
  | .error e => (.error e, [])
  | .ok url => (.ok url, if check_urls then [(url, reach url)] else [])

/-- URL value of `SPM._get_spm_url`: one fixed template with `version`
substituted for `\x7bspm\x7d` and `matlab_version` for `\x7bmatlab\x7d`. -/
def spmUrlValue (version matlab_version : String) : String :=
  pyReplace
    (pyReplace
      "http://www.fil.ion.ucl.ac.uk/spm/download/restricted/utopia/dev/spm{spm}_latest_Linux_{matlab}.zip"
      "{spm}" version)
    "{matlab}" matlab_version

/-- Full `SPM._get_spm_url`: compute the URL, then, when `check_urls`,
call `check_url` on it (result ignored). -/
def _get_spm_url (version matlab_version : String) (check_urls : Bool)
    (reach : String → Bool) : String × CheckTrace :=
  let url := spmUrlValue version matlab_version
  (url, if check_urls then [(url, reach url)] else [])

/-- Shell command chain built inside `SPM.install_mcr` before indenting:
download, extract, silent install to `/opt/mcr`, cleanup, each later step
gated on the previous by `&&`. -/
def mcrCmdChain (url : String) : String :=
  "curl -sSL -o mcr.zip " ++ url ++
  "\n&& unzip -q mcr.zip -d mcrtmp" ++
  "\n&& mcrtmp/install -destinationFolder /opt/mcr -mode silent -agreeToLicense yes" ++
  "\n&& rm -rf mcrtmp mcr.zip /tmp/*"

/-- `SPM.install_mcr`: comment line, `WORKDIR /opt`, and the indented
command chain, joined by newlines. -/
def install_mcr (url : String) : String :=
  String.intercalate "\n"
    ["# Install MATLAB Compiler Runtime", "WORKDIR /opt", indent "RUN" (mcrCmdChain url)]

/-- Shell command chain built inside `SPM.install_spm` before indenting
(note the trailing newline of the Python literal). -/
def spmCmdChain (url : String) : String :=
  "curl -sSL -o spm.zip " ++ url ++
  "\n&& unzip -q spm.zip" ++
  "\n&& rm -rf spm.zip\n"

/-- Environment block literal of `SPM.install_spm` before indenting. -/
def spmEnvBlock : String :=
  "MATLABCMD=/opt/mcr/v*/toolbox/matlab" ++
  "\nSPMMCRCMD=\"/opt/spm*/run_spm*.sh /opt/mcr/v*/ script\"" ++
  "\nFORCE_SPMMCR=1" ++
  "\nLD_LIBRARY_PATH=/opt/mcr/v*/runtime/glnxa64:/opt/mcr/v*/bin/glnxa64:/opt/mcr/v*/sys/os/glnxa64:$LD_LIBRARY_PATH"

/-- `SPM.install_spm`: comment line, `WORKDIR /opt`, the indented command
chain, and the indented environment block, joined by newlines. -/
def install_spm (url : String) : String :=
  String.intercalate "\n"
    ["# Install standalone SPM", "WORKDIR /opt",
     indent "RUN" (spmCmdChain url), indent "ENV" spmEnvBlock]

/-- Comment header built at the top of `SPM._create_cmd`. -/
def spmComment (version : String) : String :=
  "#----------------------\n# Install MCR and SPM" ++ version ++ "\n#----------------------"

/-- `SPM._create_cmd`: build both URLs (each optionally checked, in that
order), then compose the sections; `install_libs` is evaluated only after
both URLs, so its `KeyError` is raised after both checks ran. -/
def _create_cmd (version matlab_version pm : String) (check_urls : Bool)
    (reach : String → Bool) : Except PyError String × CheckTrace :=
  match _get_mcr_url matlab_version check_urls reach with
  | (.error e, t) => (.error e, t)
  | (.ok mcr_url, t₁) =>
    let (spm_url, t₂) := _get_spm_url version matlab_version check_urls reach
    match install_libs pm with
    | .error e => (.error e, t₁ ++ t₂)
    | .ok libsSection =>
      (.ok (String.intercalate "\n"
            [spmComment version, libsSection, "",
             install_mcr mcr_url, "", install_spm spm_url]),
       t₁ ++ t₂)

/-- A Python scalar passed as the `version` argument; `SPM.__init__`
coerces it with `str()` before validating. A float is represented by its
shortest-decimal literal (integer part and fraction digits), which is what
`str()` prints for the floats considered here. -/
inductive PyScalar where
  | pint (n : Int)
  | pstr (s : String)
  | pfloat (ip : Int) (frac : String)
deriving DecidableEq, Repr

/-- Python `str()` of the scalar. -/
def pyStr : PyScalar → String
  | .pint n => toString n
  | .pstr s => s
  | .pfloat ip frac => toString ip ++ "." ++ frac

/-- The constructed `SPM` object (the spec's `InstallSpec`): the four
stored fields plus the composed instruction string `cmd`. -/
structure SPM where
  version : String
  matlab_version : String
  pkg_manager : String
  check_urls : Bool
  cmd : String
deriving DecidableEq, Repr

/-- Supported SPM versions (`['12']` in `SPM.__init__`). -/
def supportedVersions : List String := ["12"]

/-- `SPM.__init__` (the spec's `build`): coerce `version` with `str()`,
store the fields, fail with `ValueError` when the version is unsupported,
otherwise run `_create_cmd`. Returns the outcome together with the trace
of `check_url` calls performed. -/
def build (version : PyScalar) (matlab_version pm : String)
    (check_urls : Bool) (reach : String → Bool) :
    Except PyError SPM × CheckTrace :=
  let v := pyStr version
  if v ∈ supportedVersions then
    match _create_cmd v matlab_version pm check_urls reach with
    | (.error e, t) => (.error e, t)
    | (.ok cmd, t) => (.ok ⟨v, matlab_version, pm, check_urls, cmd⟩, t)
  else
    (.error (.valueError "Only SPM12 is supported (for now)."), [])

/-- Whether an `Except` value is a success (the build produced an object). -/
def exceptIsOk {ε α : Type} : Except ε α → Bool
  | .ok _ => true
  | .error _ => false

/-- Observation of a build outcome as instruction content: the composed
instruction string on success, the error otherwise. (The constructed
object also stores the `check_urls` flag itself, so object identity is not
the right notion of "same output" across that flag.) -/
def buildResultCmd : Except PyError SPM → Except PyError String
  | .ok s => .ok s.cmd
  | .error e => .error e

/-- Variable names defined by an environment block: the text before the
first `'='` of each line. -/
def envVarNames (block : String) : List String :=
  (pySplitlines block).map (fun l => String.mk (l.data.takeWhile (fun c => c ≠ '=')))

/-- The four shell steps of the runtime-install command chain, read off the
spec's description of section 3 (download, extract quietly, silent install
to `/opt/mcr`, remove temporary artifacts). -/
def mcrStepList (url : String) : List String :=
  ["curl -sSL -o mcr.zip " ++ url,
   "unzip -q mcr.zip -d mcrtmp",
   "mcrtmp/install -destinationFolder /opt/mcr -mode silent -agreeToLicense yes",
   "rm -rf mcrtmp mcr.zip /tmp/*"]

/-! ## Helper lemmas shared by the claim proofs -/

/-- Two strings with the same character data are equal. -/
theorem strEq_of_data {a b : String} (h : a.data = b.data) : a = b :=
  congrArg String.mk h

/-- Character data of an append is the append of the character data. -/
theorem strData_append (a b : String) : (a ++ b).data = a.data ++ b.data := rfl

/-- When both URLs form and the library section succeeds, `_create_cmd`
returns the six-chunk newline join and the trace of the two optional
`check_url` calls, in runtime-then-application order. -/
theorem create_cmd_ok (v mv pm : String) (cu : Bool) (reach : String → Bool)
    (u l : String) (hu : mcrUrlValue mv = Except.ok u)
    (hl : install_libs pm = Except.ok l) :
    _create_cmd v mv pm cu reach =
      (Except.ok (String.intercalate "\n"
         [spmComment v, l, "", install_mcr u, "", install_spm (spmUrlValue v mv)]),
       (if cu then [(u, reach u)] else []) ++
         (if cu then [(spmUrlValue v mv, reach (spmUrlValue v mv))] else [])) := by
  simp only [_create_cmd, _get_mcr_url, _get_spm_url, hu, hl]

/-- When the manager lookup fails, `_create_cmd` raises its `KeyError`
after both URLs were built and (optionally) checked. -/
theorem create_cmd_keyError (v mv pm : String) (cu : Bool) (reach : String → Bool)
    (u : String) (hu : mcrUrlValue mv = Except.ok u)
    (hpm : manage_pkgs pm = none) :
    _create_cmd v mv pm cu reach =
      (Except.error (.keyError pm),
       (if cu then [(u, reach u)] else []) ++
         (if cu then [(spmUrlValue v mv, reach (spmUrlValue v mv))] else [])) := by
  simp only [_create_cmd, _get_mcr_url, _get_spm_url, install_libs, hu, hpm]

/-- When the version comparison raises, `_create_cmd` fails before any
`check_url` call. -/
theorem create_cmd_mcr_error (v mv pm : String) (cu : Bool) (reach : String → Bool)
    (e : PyError) (hm : mcrUrlValue mv = Except.error e) :
    _create_cmd v mv pm cu reach = (Except.error e, []) := by
  simp only [_create_cmd, _get_mcr_url, hm]

/-- When `install_libs` fails with any error, `_create_cmd` propagates it
after both URL checks. -/
theorem create_cmd_libs_error (v mv pm : String) (cu : Bool) (reach : String → Bool)
    (u : String) (e : PyError) (hu : mcrUrlValue mv = Except.ok u)
    (hl : install_libs pm = Except.error e) :
    _create_cmd v mv pm cu reach =
      (Except.error e,
       (if cu then [(u, reach u)] else []) ++
         (if cu then [(spmUrlValue v mv, reach (spmUrlValue v mv))] else [])) := by
  simp only [_create_cmd, _get_mcr_url, _get_spm_url, hu, hl]

/-! ## Claim theorems -/

/-- Claim C1: the runtime-download URL is a pure function of
`runtimeVersion` branching solely on the fixed threshold `R2013a`: strictly
greater versions get the `deployment_files` layout under the fixed base,
versions equal to or below the threshold get the legacy `MCR_Runtime`
layout, with the version substituted into every placeholder occurrence. -/
theorem mcr_url_threshold_branching (mv : String) :
    (looseCmp (looseParse mv) (looseParse "R2013a") = some Ordering.gt →
      mcrUrlValue mv = Except.ok
        ("https://www.mathworks.com/supportfiles/downloads/" ++ (mv ++ ("/deployment_files/" ++ (mv ++ ("/installers/glnxa64/MCR_" ++ (mv ++ "_glnxa64_installer.zip"))))))) ∧
    (looseCmp (looseParse mv) (looseParse "R2013a") = some Ordering.eq ∨
       looseCmp (looseParse mv) (looseParse "R2013a") = some Ordering.lt →
      mcrUrlValue mv = Except.ok
        ("https://www.mathworks.com/supportfiles/MCR_Runtime/" ++ (mv ++ ("/MCR_" ++ (mv ++ "_glnxa64_installer.zip"))))) := by
  constructor
  · intro h
    unfold mcrUrlValue
    rw [h]
    rfl
  · rintro (h | h) <;>
      (unfold mcrUrlValue; rw [h]; rfl)

/-- Witness for C1 at the boundary versions: `R2013b` (just above the
threshold, deployment layout), `R2013a` (equal, legacy layout) and
`R2012b` (just below, legacy layout). -/
theorem mcr_url_threshold_branching_witness :
    mcrUrlValue "R2013b" = Except.ok "https://www.mathworks.com/supportfiles/downloads/R2013b/deployment_files/R2013b/installers/glnxa64/MCR_R2013b_glnxa64_installer.zip" ∧
    mcrUrlValue "R2013a" = Except.ok "https://www.mathworks.com/supportfiles/MCR_Runtime/R2013a/MCR_R2013a_glnxa64_installer.zip" ∧
    mcrUrlValue "R2012b" = Except.ok "https://www.mathworks.com/supportfiles/MCR_Runtime/R2012b/MCR_R2012b_glnxa64_installer.zip" := by
  refine ⟨?_, ?_, ?_⟩
  · exact ((mcr_url_threshold_branching "R2013b").1 (by decide)).trans (by rfl)
  · exact ((mcr_url_threshold_branching "R2013a").2 (Or.inl (by decide))).trans (by rfl)
  · exact ((mcr_url_threshold_branching "R2012b").2 (Or.inr (by decide))).trans (by rfl)

/-- Claim C2: for every version whose string form is in the supported set
(with a recognized package manager and a runtime version comparable with
the threshold) the build succeeds and returns an object; for every version
outside the supported set it fails with the unsupported-version error and
produces nothing. -/
theorem build_version_validation :
    (∀ ver : PyScalar, ∀ mv pm : String, ∀ cu : Bool, ∀ reach : String → Bool,
       pyStr ver ∈ supportedVersions → (pm = "apt" ∨ pm = "yum") →
       looseCmp (looseParse mv) (looseParse "R2013a") ≠ none →
       exceptIsOk (build ver mv pm cu reach).1 = true) ∧
    (∀ ver : PyScalar, ∀ mv pm : String, ∀ cu : Bool, ∀ reach : String → Bool,
       pyStr ver ∉ supportedVersions →
       (build ver mv pm cu reach).1 =
         Except.error (.valueError "Only SPM12 is supported (for now).")) := by
  constructor
  · intro ver mv pm cu reach hv hpm hcmp
    cases hc : looseCmp (looseParse mv) (looseParse "R2013a") with
    | none => exact absurd hc hcmp
    | some o =>
      have hu : mcrUrlValue mv = Except.ok
          (pyReplace (urljoin mcrBase (if o = Ordering.gt then mcrRelNew else mcrRelOld)) "{ver}" mv) := by
        unfold mcrUrlValue
        rw [hc]
      obtain ⟨l, hl⟩ : ∃ l, install_libs pm = Except.ok l := by
        rcases hpm with h | h <;> subst h
        · exact ⟨_, rfl⟩
        · exact ⟨_, rfl⟩
      have hcc := create_cmd_ok (pyStr ver) mv pm cu reach _ l hu hl
      simp only [build, if_pos hv, hcc]
      rfl
  · intro ver mv pm cu reach hv
    simp only [build, if_neg hv]

/-- Witness for C2: the supported version string succeeds; version "8"
fails with the unsupported-version error. -/
theorem build_version_validation_witness :
    exceptIsOk (build (.pstr "12") "R2017a" "apt" true (fun _ => true)).1 = true ∧
    (build (.pstr "8") "R2017a" "apt" true (fun _ => true)).1 =
      Except.error (.valueError "Only SPM12 is supported (for now).") := by
  constructor
  · exact build_version_validation.1 (.pstr "12") "R2017a" "apt" true (fun _ => true)
      (by decide) (Or.inl rfl) (by decide)
  · exact build_version_validation.2 (.pstr "8") "R2017a" "apt" true (fun _ => true) (by decide)

/-- Claim C4: for every package manager other than the two recognized
identifiers the build fails with the `KeyError` propagated from the
`manage_pkgs` lookup, and no object is produced. -/
theorem build_unrecognized_manager_fails (mv pm : String) (cu : Bool)
    (reach : String → Bool)
    (h1 : pm ≠ "apt") (h2 : pm ≠ "yum")
    (hcmp : looseCmp (looseParse mv) (looseParse "R2013a") ≠ none) :
    (build (.pstr "12") mv pm cu reach).1 = Except.error (.keyError pm) := by
  cases hc : looseCmp (looseParse mv) (looseParse "R2013a") with
  | none => exact absurd hc hcmp
  | some o =>
    have hu : mcrUrlValue mv = Except.ok
        (pyReplace (urljoin mcrBase (if o = Ordering.gt then mcrRelNew else mcrRelOld)) "{ver}" mv) := by
      unfold mcrUrlValue
      rw [hc]
    have hpm : manage_pkgs pm = none := by
      simp [manage_pkgs, h1, h2]
    have hv : pyStr (PyScalar.pstr "12") ∈ supportedVersions := by decide
    have hcc := create_cmd_keyError (pyStr (PyScalar.pstr "12")) mv pm cu reach _ hu hpm
    simp only [build, if_pos hv, hcc]

/-- Witness for C4 at the unrecognized manager "dnf". -/
theorem build_unrecognized_manager_fails_witness :
    (build (.pstr "12") "R2017a" "dnf" true (fun _ => true)).1 =
      Except.error (.keyError "dnf") :=
  build_unrecognized_manager_fails "R2017a" "dnf" true (fun _ => true)
    (by decide) (by decide) (by decide)

/-- Claim C5: for fixed version, runtime version and package manager, the
composed instruction content of the build outcome is identical across all
values of `checkUrls` and across all reachability oracles: neither the
flag nor any check outcome changes the returned instruction content, and a
failed check never aborts construction (failures too are identical). -/
theorem build_output_independent_of_url_checks (ver : PyScalar) (mv pm : String)
    (cu₁ cu₂ : Bool) (reach₁ reach₂ : String → Bool) :
    buildResultCmd (build ver mv pm cu₁ reach₁).1 =
      buildResultCmd (build ver mv pm cu₂ reach₂).1 := by
  have hcc : (_create_cmd (pyStr ver) mv pm cu₁ reach₁).1 =
      (_create_cmd (pyStr ver) mv pm cu₂ reach₂).1 := by
    simp only [_create_cmd, _get_mcr_url, _get_spm_url]
    cases mcrUrlValue mv with
    | error e => rfl
    | ok u =>
      cases install_libs pm with
      | error e => rfl
      | ok l => rfl
  simp only [build]
  split
  · rcases h₁ : _create_cmd (pyStr ver) mv pm cu₁ reach₁ with ⟨x₁, t₁⟩
    rcases h₂ : _create_cmd (pyStr ver) mv pm cu₂ reach₂ with ⟨x₂, t₂⟩
    rw [h₁, h₂] at hcc
    have hx : x₁ = x₂ := hcc
    subst hx
    cases x₁ <;> rfl
  · rfl

/-- Claim C3: end-to-end composition at `build("12", "R2017a", apt,
checkUrls=false)` — the output is the fixed-order newline join of the
comment header, the library section, a blank, the runtime section, a
blank, and the application section; it contains the header naming "12",
the apt package list, the chain installing to `/opt/mcr`, and an
environment block defining exactly the four variable names with wildcard
paths under `/opt/mcr` and `/opt/spm*`. -/
theorem build_end_to_end_composition :
    ∃ s : SPM,
      (build (.pstr "12") "R2017a" "apt" false (fun _ => true)).1 = Except.ok s ∧
      s.cmd = String.intercalate "\n"
        [spmComment "12",
         "# Install required libraries\nRUN apt-get update -qq && apt-get install -yq --no-install-recommends libxext6 libxt6 \\\n    && apt-get clean \\\n    && rm -rf /var/lib/apt/lists/*",
         "",
         install_mcr "https://www.mathworks.com/supportfiles/downloads/R2017a/deployment_files/R2017a/installers/glnxa64/MCR_R2017a_glnxa64_installer.zip",
         "",
         install_spm "http://www.fil.ion.ucl.ac.uk/spm/download/restricted/utopia/dev/spm12_latest_Linux_R2017a.zip"] ∧
      containsSub s.cmd "# Install MCR and SPM12" = true ∧
      containsSub s.cmd "libxext6 libxt6" = true ∧
      containsSub s.cmd "-destinationFolder /opt/mcr" = true ∧
      containsSub s.cmd "ENV MATLABCMD" = true ∧
      envVarNames spmEnvBlock = ["MATLABCMD", "SPMMCRCMD", "FORCE_SPMMCR", "LD_LIBRARY_PATH"] ∧
      containsSub s.cmd "/opt/mcr/v*" = true ∧
      containsSub s.cmd "/opt/spm*" = true := by
  refine ⟨_, rfl, rfl, ?_, ?_, ?_, ?_, ?_, ?_, ?_⟩ <;> decide

/-- Claim C6 counterexample: at the concrete R2017a runtime URL the
guarded `&&`-chain of the runtime-install section has four steps, not the
five the claim states. -/
theorem mcr_chain_not_five_steps :
    countOcc (mcrCmdChain "https://www.mathworks.com/supportfiles/downloads/R2017a/deployment_files/R2017a/installers/glnxa64/MCR_R2017a_glnxa64_installer.zip") "\n&& " + 1 = 4 ∧
    countOcc (mcrCmdChain "https://www.mathworks.com/supportfiles/downloads/R2017a/deployment_files/R2017a/installers/glnxa64/MCR_R2017a_glnxa64_installer.zip") "\n&& " + 1 ≠ 5 := by
  decide

/-- Claim C6 as amended: the runtime-install section is the comment line,
the `WORKDIR /opt` instruction, and one guarded chain of FOUR steps
(download, extract quietly, silent install with the license-acceptance
flag to `/opt/mcr`, remove temporary artifacts), each step gated on the
previous by `&&`, wrapped under a `RUN` instruction. -/
theorem mcr_install_four_step_chain (url : String) :
    install_mcr url = String.intercalate "\n"
      ["# Install MATLAB Compiler Runtime", "WORKDIR /opt",
       indent "RUN" (String.intercalate "\n&& " (mcrStepList url))] ∧
    (mcrStepList url).length = 4 := by
  constructor
  · have h : mcrCmdChain url = String.intercalate "\n&& " (mcrStepList url) := by
      apply strEq_of_data
      simp only [mcrCmdChain, mcrStepList, String.intercalate, String.intercalate.go,
        strData_append, List.append_assoc]
      rfl
    unfold install_mcr
    rw [h]
  · rfl

/-- Claim C7: for each recognized manager the library-install section is
the comment line plus the manager's install template with its hard-coded
package list substituted, joined to its cache-clean template by `&&`,
wrapped under a `RUN` instruction. -/
theorem install_libs_per_manager :
    install_libs "apt" = Except.ok "# Install required libraries\nRUN apt-get update -qq && apt-get install -yq --no-install-recommends libxext6 libxt6 \\\n    && apt-get clean \\\n    && rm -rf /var/lib/apt/lists/*" ∧
    install_libs "yum" = Except.ok "# Install required libraries\nRUN yum install -y -q libXext.x86_64 libXt.x86_64 \\\n    && yum clean packages \\\n    && rm -rf /var/cache/yum/*" :=
  ⟨rfl, rfl⟩

/-- Claim C8: on a successful build, `checkUrls=false` performs zero
reachability checks, and `checkUrls=true` performs exactly two — first the
runtime-download URL, then the application-download URL. -/
theorem check_url_call_counts (ver : PyScalar) (mv pm : String)
    (reach : String → Bool) :
    (exceptIsOk (build ver mv pm false reach).1 = true →
       (build ver mv pm false reach).2 = []) ∧
    (exceptIsOk (build ver mv pm true reach).1 = true →
       ∃ u, mcrUrlValue mv = Except.ok u ∧
         (build ver mv pm true reach).2 =
           [(u, reach u),
            (spmUrlValue (pyStr ver) mv, reach (spmUrlValue (pyStr ver) mv))]) := by
  constructor
  · intro _
    by_cases hv : pyStr ver ∈ supportedVersions
    · cases hm : mcrUrlValue mv with
      | error e =>
        have hcc := create_cmd_mcr_error (pyStr ver) mv pm false reach e hm
        simp only [build, if_pos hv, hcc]
      | ok u =>
        cases hl : install_libs pm with
        | error e =>
          have hcc := create_cmd_libs_error (pyStr ver) mv pm false reach u e hm hl
          simp only [build, if_pos hv, hcc]
          rfl
        | ok l =>
          have hcc := create_cmd_ok (pyStr ver) mv pm false reach u l hm hl
          simp only [build, if_pos hv, hcc]
          rfl
    · simp only [build, if_neg hv]
  · intro h
    by_cases hv : pyStr ver ∈ supportedVersions
    · cases hm : mcrUrlValue mv with
      | error e =>
        have hcc := create_cmd_mcr_error (pyStr ver) mv pm true reach e hm
        rw [build, if_pos hv, hcc] at h
        exact Bool.noConfusion h
      | ok u =>
        cases hl : install_libs pm with
        | error e =>
          have hcc := create_cmd_libs_error (pyStr ver) mv pm true reach u e hm hl
          rw [build, if_pos hv, hcc] at h
          exact Bool.noConfusion h
        | ok l =>
          have hcc := create_cmd_ok (pyStr ver) mv pm true reach u l hm hl
          refine ⟨u, rfl, ?_⟩
          simp only [build, if_pos hv, hcc]
          rfl
    · rw [build, if_neg hv] at h
      exact Bool.noConfusion h

/-- Witness for C8 at the end-to-end configuration: zero checks with the
flag off, two checks with it on. -/
theorem check_url_call_counts_witness :
    (build (.pstr "12") "R2017a" "apt" false (fun _ => true)).2 = [] ∧
    (build (.pstr "12") "R2017a" "apt" true (fun _ => true)).2.length = 2 := by
  constructor
  · exact (check_url_call_counts (.pstr "12") "R2017a" "apt" (fun _ => true)).1 (by decide)
  · obtain ⟨u, _, ht⟩ :=
      (check_url_call_counts (.pstr "12") "R2017a" "apt" (fun _ => true)).2 (by decide)
    rw [ht]
    rfl

/-- Claim C9: an unsupported version fails before any URL is built and
performs zero reachability checks; for version "12" with an unrecognized
manager and `checkUrls=true`, both URLs are constructed and both checks
performed before the unrecognized-manager failure. -/
theorem validation_effect_ordering :
    (∀ ver : PyScalar, ∀ mv pm : String, ∀ reach : String → Bool,
       pyStr ver ∉ supportedVersions →
       build ver mv pm true reach =
         (Except.error (.valueError "Only SPM12 is supported (for now)."), [])) ∧
    (∀ mv pm : String, ∀ reach : String → Bool, ∀ u : String,
       mcrUrlValue mv = Except.ok u → manage_pkgs pm = none →
       build (.pstr "12") mv pm true reach =
         (Except.error (.keyError pm),
          [(u, reach u), (spmUrlValue "12" mv, reach (spmUrlValue "12" mv))])) := by
  constructor
  · intro ver mv pm reach hv
    simp only [build, if_neg hv]
  · intro mv pm reach u hu hpm
    have hv : pyStr (PyScalar.pstr "12") ∈ supportedVersions := by decide
    have hcc := create_cmd_keyError (pyStr (PyScalar.pstr "12")) mv pm true reach u hu hpm
    simp only [build, if_pos hv, hcc]
    rfl

/-- Witness for C9: version "8" fails with an empty check trace; version
"12" with manager "dnf" fails only after both URLs were checked. -/
theorem validation_effect_ordering_witness :
    build (.pstr "8") "R2017a" "apt" true (fun _ => true) =
      (Except.error (.valueError "Only SPM12 is supported (for now)."), []) ∧
    build (.pstr "12") "R2017a" "dnf" true (fun _ => true) =
      (Except.error (.keyError "dnf"),
       [("https://www.mathworks.com/supportfiles/downloads/R2017a/deployment_files/R2017a/installers/glnxa64/MCR_R2017a_glnxa64_installer.zip", true),
        ("http://www.fil.ion.ucl.ac.uk/spm/download/restricted/utopia/dev/spm12_latest_Linux_R2017a.zip", true)]) := by
  constructor
  · exact validation_effect_ordering.1 (.pstr "8") "R2017a" "apt" (fun _ => true) (by decide)
  · exact (validation_effect_ordering.2 "R2017a" "dnf" (fun _ => true)
      "https://www.mathworks.com/supportfiles/downloads/R2017a/deployment_files/R2017a/installers/glnxa64/MCR_R2017a_glnxa64_installer.zip"
      (by rfl) (by rfl)).trans (by rfl)

/-- Claim C10: the version argument is coerced with `str()` before
validation — the integer 12 builds byte-identically to the string "12",
while any argument whose string form is not "12" (such as the float 12.0,
whose string form is "12.0") fails the supported-set check. -/
theorem version_coerced_to_string :
    (∀ mv pm : String, ∀ cu : Bool, ∀ reach : String → Bool,
       build (.pint 12) mv pm cu reach = build (.pstr "12") mv pm cu reach) ∧
    (∀ ver : PyScalar, ∀ mv pm : String, ∀ cu : Bool, ∀ reach : String → Bool,
       pyStr ver ≠ "12" →
       (build ver mv pm cu reach).1 =
         Except.error (.valueError "Only SPM12 is supported (for now).")) ∧
    pyStr (.pfloat 12 "0") = "12.0" := by
  refine ⟨?_, ?_, ?_⟩
  · intro mv pm cu reach
    have h : pyStr (PyScalar.pint 12) = pyStr (PyScalar.pstr "12") := by decide
    unfold build
    rw [h]
  · intro ver mv pm cu reach hv
    have hv' : pyStr ver ∉ supportedVersions := by
      simpa [supportedVersions] using hv
    simp only [build, if_neg hv']
  · decide

/-- Witness for C10: the integer 12 and the string "12" build identically;
the float 12.0 fails the supported-set check. -/
theorem version_coerced_to_string_witness :
    build (.pint 12) "R2017a" "apt" false (fun _ => true) =
      build (.pstr "12") "R2017a" "apt" false (fun _ => true) ∧
    (build (.pfloat 12 "0") "R2017a" "apt" false (fun _ => true)).1 =
      Except.error (.valueError "Only SPM12 is supported (for now).") := by
  constructor
  · exact version_coerced_to_string.1 "R2017a" "apt" false (fun _ => true)
  · exact version_coerced_to_string.2.1 (.pfloat 12 "0") "R2017a" "apt" false
      (fun _ => true) (by decide)

end NeurodockerSPM
